import Mathlib

/-!
Verification of the AI-Tutor PDF ingestion / RAG pipeline
(`pdf_management_service/chapter_pdf_manager.py` and
`pdf_management_service/rag_pipeline.py`) against its natural-language
specification.

External services (PyMuPDF page extraction, the OpenAI embedding API,
the Pinecone vector store, Firebase storage) are consumed by the Python
code through narrow interfaces; here they appear as oracle parameters.
All orchestration logic is translated directly from the Python source.
-/

namespace AITutor

/-! ### `RAGPipeline.chunk_text` (rag_pipeline.py, lines 259-294)

A sentence is represented by its list of words (the result of Python's
`s.split()`); the running buffer `current_chunk` likewise.  Python's
`current_chunk + " " + sentence if current_chunk else sentence`
followed by `.split()` corresponds to list append in both cases,
`len(x.split())` to `List.length`, and `.strip()` leaves the word list
unchanged.  The float comparison `word_count > max_chunk_size * 1.5`
is written `2 * word_count > 3 * max_chunk_size`, which is exact for
the integer operands involved. -/

def chunkTextLoop (minSize maxSize : Nat) :
    List (List String) → List String → List (List String) → List (List String)
  | [], current, chunks =>
    if current ≠ [] ∧ minSize ≤ current.length then
      chunks ++ [current]
    else if current ≠ [] ∧ chunks ≠ [] then
      chunks.dropLast ++ [(chunks.getLast?.getD []) ++ current]
    else
      chunks
  | sentence :: rest, current, chunks =>
    if (current ++ sentence).length ≤ maxSize then
      chunkTextLoop minSize maxSize rest (current ++ sentence) chunks
    else if minSize ≤ current.length then
      chunkTextLoop minSize maxSize rest sentence (chunks ++ [current])
    else if 2 * (current ++ sentence).length > 3 * maxSize then
      chunkTextLoop minSize maxSize rest [] (chunks ++ [current ++ sentence])
    else
      chunkTextLoop minSize maxSize rest (current ++ sentence) chunks

def chunkText (sentences : List (List String)) (minSize : Nat := 300)
    (maxSize : Nat := 800) : List (List String) :=
  chunkTextLoop minSize maxSize sentences [] []

/-- The size invariant exactly as the specification claims it: every
chunk except possibly the last has word count between `minSize` and
`maxSize` inclusive, and the last chunk has word count at least
`minSize` unless it is the only chunk. -/
def chunkSizeClaim (minSize maxSize : Nat) (chunks : List (List String)) : Bool :=
  chunks.dropLast.all
    (fun c => decide (minSize ≤ c.length) && decide (c.length ≤ maxSize)) &&
  (decide (chunks.length ≤ 1) ||
    match chunks.getLast? with
    | none => true
    | some c => decide (minSize ≤ c.length))

def cexSentenceA : List String := ["a", "b", "c", "d", "e", "f", "g", "h"]

def cexSentenceB : List String := ["x", "y", "z"]

def cexShort : List String := ["p", "q"]

def cexFive : List String := ["r", "s", "t", "u", "v"]

def cexThreeA : List String := ["k", "l", "m"]

def cexThreeB : List String := ["n", "o", "w"]

/-- Helper invariant for the chunking loop: provided
`minSize ≤ maxSize`, every chunk the loop ever emits (and everything
already emitted) has at least `minSize` words. -/
theorem chunkTextLoop_min_size (minSize maxSize : Nat) (h : minSize ≤ maxSize) :
    ∀ (sentences : List (List String)) (current : List String)
      (chunks : List (List String)),
      (∀ c ∈ chunks, minSize ≤ c.length) →
      ∀ c ∈ chunkTextLoop minSize maxSize sentences current chunks,
        minSize ≤ c.length := by
  intro sentences
  induction sentences with
  | nil =>
    intro current chunks hinv c hc
    simp only [chunkTextLoop] at hc
    split at hc
    · rename_i hcond
      rcases List.mem_append.mp hc with h1 | h1
      · exact hinv c h1
      · rw [List.mem_singleton.mp h1]; exact hcond.2
    · split at hc
      · rename_i hcond2
        rcases List.mem_append.mp hc with h1 | h1
        · exact hinv c (List.dropLast_sublist _ |>.subset h1)
        · rw [List.mem_singleton.mp h1]
          rcases hl : chunks.getLast? with _ | l
          · exact absurd (List.getLast?_eq_none_iff.mp hl) hcond2.2
          · obtain ⟨hne, heq⟩ :=
              List.mem_getLast?_eq_getLast (show l ∈ chunks.getLast? from hl)
            have hlm : l ∈ chunks := heq ▸ List.getLast_mem hne
            have := hinv l hlm
            simp only [hl, Option.getD_some, List.length_append]
            omega
      · exact hinv c hc
  | cons s rest ih =>
    intro current chunks hinv c hc
    simp only [chunkTextLoop] at hc
    split at hc
    · exact ih _ _ hinv c hc
    · split at hc
      · rename_i hge
        refine ih _ _ ?_ c hc
        intro d hd
        rcases List.mem_append.mp hd with h1 | h1
        · exact hinv d h1
        · rw [List.mem_singleton.mp h1]; exact hge
      · split at hc
        · rename_i hforce
          refine ih _ _ ?_ c hc
          intro d hd
          rcases List.mem_append.mp hd with h1 | h1
          · exact hinv d h1
          · rw [List.mem_singleton.mp h1]; omega
        · exact ih _ _ hinv c hc

/-- C3 counterexample: the chunk-size invariant stated by the
specification fails on concrete runs of `chunk_text`.  With
`min_chunk_size = 3`, `max_chunk_size = 5`, an 8-word sentence followed
by a 3-word sentence produces a first (non-last) chunk of 8 words,
exceeding the maximum; a second run additionally produces an oversized
non-last chunk of 7 words that is not even explained by the 1.5x force
split (`2 * 7 ≤ 3 * 5`). -/
theorem chunk_text_size_claim_false :
    (3 : Nat) ≤ 5 ∧
    chunkText [cexSentenceA, cexSentenceB] 3 5 = [cexSentenceA, cexSentenceB] ∧
    cexSentenceA.length = 8 ∧
    chunkSizeClaim 3 5 (chunkText [cexSentenceA, cexSentenceB] 3 5) = false ∧
    chunkText [cexShort, cexFive, cexThreeA, cexThreeB] 3 5 =
      [cexShort ++ cexFive, cexThreeA, cexThreeB] ∧
    (cexShort ++ cexFive).length = 7 ∧
    2 * 7 ≤ 3 * 5 ∧
    chunkSizeClaim 3 5 (chunkText [cexShort, cexFive, cexThreeA, cexThreeB] 3 5) =
      false := by
  decide

/-- C3 (amended): provided `min_chunk_size ≤ max_chunk_size`, every
chunk returned by `chunk_text` — the last included, even when it is the
only one — has word count at least `min_chunk_size`.  No upper bound
holds: chunks may exceed `max_chunk_size` (long sentences are never
split, and an under-minimum buffer keeps growing past the maximum). -/
theorem chunk_text_min_size (minSize maxSize : Nat) (h : minSize ≤ maxSize)
    (sentences : List (List String)) :
    ∀ c ∈ chunkText sentences minSize maxSize, minSize ≤ c.length :=
  chunkTextLoop_min_size minSize maxSize h sentences [] []
    (fun c hc => absurd hc (List.not_mem_nil c))

/-- C3 witness: the amended lower-bound theorem applied at a concrete
input with `min_chunk_size = 3`, `max_chunk_size = 5`. -/
theorem chunk_text_min_size_witness :
    (3 : Nat) ≤ 5 ∧
    ∀ c ∈ chunkText [cexSentenceA, cexSentenceB] 3 5, 3 ≤ c.length :=
  ⟨by decide, chunk_text_min_size 3 5 (by decide) [cexSentenceA, cexSentenceB]⟩

/-! ### `RAGPipeline.detect_chapters` (rag_pipeline.py, lines 198-257)

The raw heading match list is produced by `re.finditer` over the fixed
Bengali/English pattern families; the regex engine is external, so a
match is modelled by its character offsets (`match.start()`,
`match.end()`).  Everything from collection onward — the `full_line`
slice, the ascending stable sort by start position, the zero-match
fallback, and the boundary pairing — is repository code and is
translated directly.  Python's stable `sort(key=lambda x: x['start'])`
is rendered as insertion sort with the same key order. -/

/-- Python `str.strip()` — drop leading and trailing whitespace.
Written by structural recursion on the character list so that concrete
runs reduce inside the kernel. -/
def pyStrip (s : String) : String :=
  (((s.data.dropWhile Char.isWhitespace).reverse.dropWhile
    Char.isWhitespace).reverse).asString

/-- Python `"sep".join` / `str.split` helpers, structurally recursive. -/
def joinWith (sep : String) : List String → String
  | [] => ""
  | [x] => x
  | x :: y :: rest => x ++ sep ++ joinWith sep (y :: rest)

def splitWsAux : List Char → List Char → List (List Char)
  | [], acc => if acc.isEmpty then [] else [acc.reverse]
  | c :: cs, acc =>
    if c.isWhitespace then
      if acc.isEmpty then splitWsAux cs [] else acc.reverse :: splitWsAux cs []
    else
      splitWsAux cs (c :: acc)

/-- Python `str.split()` with no argument: split on whitespace runs,
discarding empty fields. -/
def pySplit (s : String) : List String := (splitWsAux s.data []).map List.asString

structure CMatch where
  start : Nat
  stop : Nat
  deriving Repr, DecidableEq

structure Segment where
  title : String
  start_pos : Nat
  end_pos : Nat
  content : String
  deriving Repr, DecidableEq

/-- Python slice `text[a:b]` on character indices. -/
def strSlice (s : String) (a b : Nat) : String :=
  ((s.data.drop a).take (b - a)).asString

/-- The `full_line` field computed for each match:
`text[max(0, start-50):end+100].split('\n')[0]`. -/
def fullLine (text : String) (m : CMatch) : String :=
  ((strSlice text (m.start - 50) (m.stop + 100)).data.takeWhile
    (fun c => !(c == '\n'))).asString

def matchLE (a b : CMatch) : Prop := a.start ≤ b.start

instance : DecidableRel matchLE := fun a b => Nat.decLe a.start b.start

/-- `chapter_matches.sort(key=lambda x: x['start'])` — ascending,
stable. -/
def sortMatches (ms : List CMatch) : List CMatch :=
  List.insertionSort matchLE ms

/-- Segment construction for the non-empty case: segment `i` spans from
match `i`'s start to match `i+1`'s start, or to the end of the text for
the last segment. -/
def buildSegments (text : String) : List CMatch → List Segment
  | [] => []
  | m :: rest =>
    let endPos := match rest with
      | [] => text.length
      | m2 :: _ => m2.start
    { title := pyStrip (fullLine text m)
      start_pos := m.start
      end_pos := endPos
      content := pyStrip (strSlice text m.start endPos) } :: buildSegments text rest

/-- Fallback title: `f"{subject} - Complete Text" if subject else
"Complete Text"` (an empty subject string is falsy in Python). -/
def genericTitle (subject : Option String) : String :=
  match subject with
  | some s => if s = "" then "Complete Text" else s ++ " - Complete Text"
  | none => "Complete Text"

def detectChapters (text : String) (subject : Option String)
    (ms : List CMatch) : List Segment :=
  let sorted := sortMatches ms
  if sorted.isEmpty then
    [{ title := genericTitle subject
       start_pos := 0
       end_pos := text.length
       content := text }]
  else
    buildSegments text sorted

theorem buildSegments_length (text : String) (ms : List CMatch) :
    (buildSegments text ms).length = ms.length := by
  induction ms with
  | nil => rfl
  | cons m rest ih => simp [buildSegments, ih]

theorem buildSegments_get? (text : String) :
    ∀ (ms : List CMatch) (i : Nat) (seg : Segment) (m : CMatch),
      (buildSegments text ms).get? i = some seg → ms.get? i = some m →
      seg.start_pos = m.start ∧
      seg.end_pos = (((ms.get? (i + 1)).map CMatch.start).getD text.length) ∧
      seg.title = pyStrip (fullLine text m) ∧
      seg.content = pyStrip (strSlice text seg.start_pos seg.end_pos) := by
  intro ms
  induction ms with
  | nil => intro i seg m h1 h2; simp at h2
  | cons m0 rest ih =>
    intro i seg m h1 h2
    match i with
    | 0 =>
      simp only [buildSegments, List.get?_cons_zero, Option.some_inj] at h1 h2
      subst h1; subst h2
      refine ⟨rfl, ?_, rfl, rfl⟩
      cases rest with
      | nil => rfl
      | cons m2 r2 => rfl
    | Nat.succ j =>
      simp only [buildSegments, List.get?_cons_succ] at h1 h2
      exact ih j seg m h1 h2

theorem sortMatches_sorted (ms : List CMatch) :
    List.Pairwise matchLE (sortMatches ms) := by
  haveI : IsTotal CMatch matchLE := ⟨fun a b => Nat.le_total a.start b.start⟩
  haveI : IsTrans CMatch matchLE := ⟨fun _ _ _ h1 h2 => Nat.le_trans h1 h2⟩
  exact List.sorted_insertionSort matchLE ms

theorem sortMatches_length (ms : List CMatch) :
    (sortMatches ms).length = ms.length :=
  (List.perm_insertionSort matchLE ms).length_eq

/-- C8: segment boundary pairing and the zero-match fallback of
`detect_chapters`.  With no heading match the result is exactly one
segment covering the whole text (`start 0`, `end len(text)`) under the
generic title; otherwise there is one segment per match, the match list
are considered in ascending start order, segment `i` starts at match
`i`'s start and ends at match `i+1`'s start (end of text for the last),
and its content is the (stripped) text of exactly that span. -/
theorem detect_chapters_boundaries (text : String) (subject : Option String)
    (ms : List CMatch) :
    (ms = [] →
      detectChapters text subject ms =
        [{ title := genericTitle subject
           start_pos := 0
           end_pos := text.length
           content := text }]) ∧
    (detectChapters text subject ms).length = max ms.length 1 ∧
    List.Pairwise matchLE (sortMatches ms) ∧
    (ms ≠ [] →
      ∀ (i : Nat) (seg : Segment) (m : CMatch),
        (detectChapters text subject ms).get? i = some seg →
        (sortMatches ms).get? i = some m →
        seg.start_pos = m.start ∧
        seg.end_pos =
          ((((sortMatches ms).get? (i + 1)).map CMatch.start).getD
            text.length) ∧
        seg.content = pyStrip (strSlice text seg.start_pos seg.end_pos)) := by
  have hlen := sortMatches_length ms
  refine ⟨?_, ?_, sortMatches_sorted ms, ?_⟩
  · intro h
    subst h
    rfl
  · rw [detectChapters]
    by_cases h : (sortMatches ms).isEmpty
    · rw [if_pos h]
      have : ms.length = 0 := by
        rw [← hlen]; exact List.isEmpty_iff_length_eq_zero.mp h
      simp [this]
    · rw [if_neg h]
      rw [buildSegments_length, hlen]
      have : ms.length ≠ 0 := by
        intro h0
        exact h (List.isEmpty_iff_length_eq_zero.mpr (hlen.trans h0))
      omega
  · intro hne i seg m h1 h2
    have hsne : ¬(sortMatches ms).isEmpty := by
      intro h0
      exact hne (List.length_eq_zero.mp
        (hlen.symm.trans (List.isEmpty_iff_length_eq_zero.mp h0)))
    rw [detectChapters, if_neg hsne] at h1
    obtain ⟨ha, hb, _, hd⟩ := buildSegments_get? text (sortMatches ms) i seg m h1 h2
    exact ⟨ha, hb, hd⟩

/-- C8 witness: the boundary theorem applied at a concrete text with
two (unsorted) heading match offsets and at the zero-match input. -/
theorem detect_chapters_boundaries_witness :
    (detectChapters "no headings here" (some "Physics") [] =
      [{ title := "Physics - Complete Text"
         start_pos := 0
         end_pos := 16
         content := "no headings here" }]) ∧
    (∀ (i : Nat) (seg : Segment) (m : CMatch),
      (detectChapters "Chapter 1 aa Chapter 2 bb" none
        [⟨13, 22⟩, ⟨0, 9⟩]).get? i = some seg →
      (sortMatches [⟨13, 22⟩, ⟨0, 9⟩]).get? i = some m →
      seg.start_pos = m.start ∧
      seg.end_pos =
        (((sortMatches [⟨13, 22⟩, ⟨0, 9⟩]).get? (i + 1)).map CMatch.start).getD
          25 ∧
      seg.content =
        pyStrip (strSlice "Chapter 1 aa Chapter 2 bb" seg.start_pos seg.end_pos)) :=
  ⟨by
    have h := (detect_chapters_boundaries "no headings here" (some "Physics") []).1
    simpa using h rfl,
   by
    have h := (detect_chapters_boundaries "Chapter 1 aa Chapter 2 bb" none
      [⟨13, 22⟩, ⟨0, 9⟩]).2.2.2
    simpa using h (by simp)⟩

/-! ### `RAGPipeline.generate_rag_response` (rag_pipeline.py, lines 488-557)

`search_relevant_chunks` embeds the query and queries Pinecone — both
external calls — and formats the ranked matches one-to-one; the
retrieved list is therefore taken as a parameter (zero vector-store
matches ↔ empty list).  The chat-completion model is the oracle
`genModel`; the response records how many generation requests were
issued.  Similarity scores (floats in the source) are modelled as
rationals. -/

structure RagChunk where
  chunk_id : String
  score : Rat
  text : String
  deriving Repr, DecidableEq

structure RagResponse where
  answer : String
  source_chunks : List RagChunk
  confidence : Rat
  context_used : Option Nat
  generationCalls : Nat
  deriving Repr, DecidableEq

/-- Python renders `f"{subject}"` for `subject = None` as `"None"`. -/
def optStr : Option String → String
  | some s => s
  | none => "None"

/-- The fixed zero-match answer of `generate_rag_response`. -/
def notCoveredAnswer (classLevel : String) (subject : Option String) : String :=
  "This topic is not covered in your Class " ++ classLevel ++ " " ++
    optStr subject ++
    " book. Do you want me to explain from general knowledge?"

/-- `{subject or 'their studies'}` — `None` and the empty string are
both falsy in Python. -/
def subjectOrStudies : Option String → String
  | some s => if s = "" then "their studies" else s
  | none => "their studies"

/-- The system prompt assembled on the generation path. -/
def ragSystemPrompt (classLevel : String) (subject : Option String)
    (context : String) : String :=
  "You are an expert AI tutor for Bangladeshi students following NCTB curriculum.\n" ++
  "You are helping a Class " ++ classLevel ++ " student with " ++
  subjectOrStudies subject ++ ".\n\n" ++
  "Use the following textbook content to answer the student's question:\n\n" ++
  context ++ "\n\nInstructions:\n" ++
  "1. Answer based ONLY on the provided textbook content\n" ++
  "2. Provide step-by-step explanations\n" ++
  "3. Use examples from the textbook when available\n" ++
  "4. Explain in both Bengali and English when helpful\n" ++
  "5. If the content doesn't fully answer the question, say so clearly\n" ++
  "6. Keep explanations clear and age-appropriate for Class " ++ classLevel ++
  " students\n"

def generateRagResponse (retrieved : List RagChunk)
    (genModel : String → String → String) (query : String)
    (classLevel : String) (subject : Option String) : RagResponse :=
  if retrieved.isEmpty then
    { answer := notCoveredAnswer classLevel subject
      source_chunks := []
      confidence := 0
      context_used := none
      generationCalls := 0 }
  else
    let context := joinWith "\n\n" (retrieved.map RagChunk.text)
    let answer := genModel (ragSystemPrompt classLevel subject context) query
    { answer := answer
      source_chunks := retrieved
      confidence := (retrieved.map RagChunk.score).sum / (retrieved.length : Rat)
      context_used := some retrieved.length
      generationCalls := 1 }

/-- C7: when the similarity search returns zero chunks,
`generate_rag_response` returns the fixed "not covered" answer with
confidence exactly 0 and an empty `source_chunks` list, and issues no
generation call. -/
theorem generate_rag_response_no_match (retrieved : List RagChunk)
    (genModel : String → String → String) (query : String)
    (classLevel : String) (subject : Option String)
    (h : retrieved = []) :
    generateRagResponse retrieved genModel query classLevel subject =
      { answer := notCoveredAnswer classLevel subject
        source_chunks := []
        confidence := 0
        context_used := none
        generationCalls := 0 } := by
  subst h
  rfl

/-- C7 witness: the zero-match theorem applied at a concrete query and
scope. -/
theorem generate_rag_response_no_match_witness :
    ([] : List RagChunk) = [] ∧
    generateRagResponse [] (fun _ q => q) "What are real numbers?" "9"
        (some "Mathematics") =
      { answer := notCoveredAnswer "9" (some "Mathematics")
        source_chunks := []
        confidence := 0
        context_used := none
        generationCalls := 0 } :=
  ⟨rfl, generate_rag_response_no_match [] (fun _ q => q)
    "What are real numbers?" "9" (some "Mathematics") rfl⟩

/-! ### Chapter catalog (chapter_pdf_manager.py, lines 46-190)

`NCTB_CHAPTERS` is immutable reference data; only the keys matter for
the access-control logic, so the catalog is modelled by its key list in
source order. -/

def nctbChapterIds : List String :=
  ["real_numbers", "sets_functions", "algebraic_expressions",
   "indices_logarithms", "linear_equations", "lines_angles_triangles",
   "practical_geometry", "circles", "trigonometric_ratios",
   "distance_height", "algebraic_ratios", "simultaneous_equations",
   "finite_series", "ratio_similarity_symmetry", "area_theorems",
   "mensuration", "statistics", "real_numbers_advanced"]

def listPrefixOf : List Char → List Char → Bool
  | [], _ => true
  | _ :: _, [] => false
  | a :: as, b :: bs => a == b && listPrefixOf as bs

def listInfixOf (pat : List Char) : List Char → Bool
  | [] => listPrefixOf pat []
  | b :: bs => listPrefixOf pat (b :: bs) || listInfixOf pat bs

/-- Python's `'advanced' in k` substring test. -/
def containsAdvanced (k : String) : Bool :=
  listInfixOf "advanced".toList k.toList

def getChaptersForClass (classLevel : Nat) : List String :=
  if classLevel = 9 then
    nctbChapterIds.filter (fun k => !(containsAdvanced k))
  else if classLevel = 10 then
    nctbChapterIds
  else
    []

def isValidChapterForClass (chapterId : String) (classLevel : Nat) : Bool :=
  (getChaptersForClass classLevel).contains chapterId

/-! ### `ChapterPDFManager` data model and service oracles

The local metadata file (`chapter_metadata.json`) keys records by
`f"class_{level}"` then chapter id; since that key is injective in the
level, the state is an association list keyed by the
`(class_level, chapter_id)` pair.  Fields irrelevant to every claim
(filenames, timestamps, display names) are omitted; `local_path` is
tracked by whether the file exists at that path.  The external services
(SHA-256 digests, PyMuPDF page extraction, OpenAI embeddings, the
Pinecone index, Firebase storage) appear as oracle fields. -/

structure ChapterMeta where
  file_hash : Option String := none
  text_chunks_count : Nat := 0
  firebase_url : Option String := none
  firebase_path : Option String := none
  local_path_exists : Bool := false
  deriving Repr, DecidableEq

structure ManagerState where
  metadata : List ((Nat × String) × ChapterMeta)
  deriving Repr, DecidableEq

def lookupMeta (st : ManagerState) (classLevel : Nat) (chapterId : String) :
    Option ChapterMeta :=
  (st.metadata.find? (fun p => p.1.1 == classLevel && p.1.2 == chapterId)).map
    Prod.snd

/-- `self.chapter_metadata[chapter_key][chapter_id] = {...}` — full
overwrite of the record for one `(class, chapter)` key. -/
def setMeta (st : ManagerState) (classLevel : Nat) (chapterId : String)
    (m : ChapterMeta) : ManagerState :=
  { metadata := ((classLevel, chapterId), m) ::
      st.metadata.filter (fun p => !(p.1.1 == classLevel && p.1.2 == chapterId)) }

/-- In-place update of single fields of an existing record. -/
def updateMeta (st : ManagerState) (classLevel : Nat) (chapterId : String)
    (f : ChapterMeta → ChapterMeta) : ManagerState :=
  { metadata := st.metadata.map
      (fun p => if p.1.1 == classLevel && p.1.2 == chapterId then (p.1, f p.2)
                else p) }

structure Services where
  firebase_initialized : Bool
  clients_initialized : Bool
  sha256 : List Nat → String
  pageTexts : List Nat → List String
  embedOk : Nat → Bool
  chapterExistsInPinecone : Bool
  deleteOk : Bool
  firebaseUploadOk : Bool
  publicUrl : String → String

/-- `chunk_id = f"{class_level}_{chapter_id}_chunk_{i}"`
(chapter_pdf_manager.py line 384). -/
def chunkId (classLevel : Nat) (chapterId : String) (i : Nat) : String :=
  toString classLevel ++ "_" ++ chapterId ++ "_chunk_" ++ toString i

/-- `delete_chapter` (lines 932-939) enumerates candidate vector ids as
`[f"{class_level}_{chapter_id}_chunk_{i}" for i in range(1000)]`. -/
def deleteChapterIds (classLevel : Nat) (chapterId : String) : List String :=
  (List.range 1000).map (chunkId classLevel chapterId)

/-! ### `create_embeddings` (chapter_pdf_manager.py, lines 364-423)

Per chunk, one embedding call is attempted (`openai.Embedding.create`);
a failure is caught, logged and skipped (`continue`), so the chunk is
excluded from the upsert buffer.  Vectors are upserted in batches of
10, with a final flush.  The function returns `True` whenever the
clients are initialized and no vector-store write raises — regardless
of how many chunks failed.  The model tracks the upserted vector ids
and the number of embedding calls attempted. -/

structure EmbedResult where
  ok : Bool
  upserted : List String
  embedCalls : Nat
  deriving Repr, DecidableEq

def createEmbedLoop (svc : Services) (classLevel : Nat) (chapterId : String) :
    List String → Nat → List String → List String → Nat → List String × Nat
  | [], _, buffer, upserted, calls =>
    if buffer.isEmpty then (upserted, calls) else (upserted ++ buffer, calls)
  | _chunk :: rest, i, buffer, upserted, calls =>
    if svc.embedOk i then
      if 10 ≤ (buffer ++ [chunkId classLevel chapterId i]).length then
        createEmbedLoop svc classLevel chapterId rest (i + 1) []
          (upserted ++ (buffer ++ [chunkId classLevel chapterId i])) (calls + 1)
      else
        createEmbedLoop svc classLevel chapterId rest (i + 1)
          (buffer ++ [chunkId classLevel chapterId i]) upserted (calls + 1)
    else
      createEmbedLoop svc classLevel chapterId rest (i + 1) buffer upserted
        (calls + 1)

def createEmbeddings (svc : Services) (chunks : List String) (classLevel : Nat)
    (chapterId : String) : EmbedResult :=
  if !svc.clients_initialized then
    { ok := false, upserted := [], embedCalls := 0 }
  else
    { ok := true
      upserted := (createEmbedLoop svc classLevel chapterId chunks 0 [] [] 0).1
      embedCalls := (createEmbedLoop svc classLevel chapterId chunks 0 [] [] 0).2 }

/-! ### `extract_text_chunks` (chapter_pdf_manager.py, lines 425-484)

`fitz` page extraction is external: the page texts of the opened
document are the oracle input.  The page loop
`for page_num in range(min(doc.page_count, 50))` keeps the raw text of
each non-blank page among the first 50; the pages are then joined with
newlines, split into whitespace-separated words, and packed into chunks
by character count with a `-overlap//10` word carry-over, a hard break
once 100 chunks exist, a 50-character minimum per kept chunk, and a
final `chunks[:50]` truncation. -/

def extractPageTexts (pages : List String) : List String :=
  (pages.take 50).filter (fun t => !(pyStrip t == ""))

/-- Python `" ".join(current_chunk)`. -/
def joinWords (ws : List String) : String := joinWith " " ws

/-- The post-loop handling: keep the trailing buffer only if its joined
text is longer than 50 characters after stripping. -/
def packFinal (current : List String) (chunks : List String) : List String :=
  if current.isEmpty then chunks
  else if 50 < (pyStrip (joinWords current)).length then chunks ++ [joinWords current]
  else chunks

/-- The word-packing loop.  `k = overlap // 10`; the overlap seed
`current_chunk[-k:] if len(current_chunk) > k else []` keeps the last
`k` words (for `k = 0`, Python's `[-0:]` is the whole list).  The
`if len(chunks) >= 100: break` check runs at the end of every
iteration and falls through to the post-loop handling. -/
def packWordsLoop (chunkSize k : Nat) :
    List String → List String → Nat → List String → List String
  | [], current, _, chunks => packFinal current chunks
  | w :: ws, current, clen, chunks =>
    if clen + w.length > chunkSize ∧ current ≠ [] then
      let chunks2 := if 50 < (pyStrip (joinWords current)).length
        then chunks ++ [joinWords current] else chunks
      let ov := if k < current.length then
          (if k = 0 then current else current.drop (current.length - k))
        else []
      if 100 ≤ chunks2.length then packFinal (ov ++ [w]) chunks2
      else packWordsLoop chunkSize k ws (ov ++ [w])
        (((ov ++ [w]).map String.length).sum) chunks2
    else
      if 100 ≤ chunks.length then packFinal (current ++ [w]) chunks
      else packWordsLoop chunkSize k ws (current ++ [w]) (clen + w.length + 1)
        chunks

def extractTextChunks (pages : List String) (chunkSize : Nat := 800)
    (overlap : Nat := 50) : List String :=
  (packWordsLoop chunkSize (overlap / 10)
    (pySplit (joinWith "\n" (extractPageTexts pages))) [] 0 []).take 50

/-! ### `upload_chapter_pdf` (chapter_pdf_manager.py, lines 569-858)

The result dictionary is modelled with absent keys as defaults; the
trace records the externally observable effects: whether the temporary
file was written (validation failures return before `file.save`),
extraction and embedding calls, upserted vector ids, and whether
`delete_existing_chapter_chunks` was invoked (its boolean return value
is read into `deleteResult` and — as in the source — never used).
`calculate_file_hash` streams the file in 4096-byte blocks; as an
equality oracle it is its digest function, modelled total.
Note on lines 702-708 of the source: the `requires_confirmation`
return dictionary sits directly after an unconditional `return` inside
the `elif existing_hash == file_hash:` branch and is therefore
unreachable; it does not appear in the model's control flow. -/

structure UploadResult where
  success : Bool := false
  duplicate_detected : Bool := false
  requires_confirmation : Bool := false
  chunks_created : Nat := 0
  existing_chunks : Nat := 0
  file_hash : Option String := none
  error : Option String := none
  action : Option String := none
  valid_chapters : Option (List String) := none
  deriving Repr, DecidableEq

structure UploadTrace where
  temp_file_saved : Bool := false
  extract_calls : Nat := 0
  embed_calls : Nat := 0
  upserted_ids : List String := []
  delete_called : Bool := false
  delete_result : Option Bool := none
  deriving Repr, DecidableEq

def firebasePath (classLevel : Nat) (chapterId : String) : String :=
  "chapters/class_" ++ toString classLevel ++ "/" ++ chapterId ++ ".pdf"

/-- The identical-file branch (lines 600-669): skip all processing and
return the recorded chunk count; if the Firebase URL is missing and
Firebase is initialized and the previously stored local file still
exists, retry only the artifact upload and record its URL/path in the
metadata. -/
def handleIdenticalFile (svc : Services) (st : ManagerState) (classLevel : Nat)
    (chapterId : String) (fileHash : String) (existing : Option ChapterMeta) :
    UploadResult × ManagerState × UploadTrace :=
  let chunksCount := (existing.map ChapterMeta.text_chunks_count).getD 0
  let firebaseUrl0 := existing.bind ChapterMeta.firebase_url
  let attemptUpload := firebaseUrl0.isNone && svc.firebase_initialized &&
    (existing.map ChapterMeta.local_path_exists).getD false
  let st' := if attemptUpload then
      updateMeta st classLevel chapterId (fun m =>
        { m with
          firebase_url := if svc.firebaseUploadOk
            then some (svc.publicUrl (firebasePath classLevel chapterId))
            else firebaseUrl0
          firebase_path := some (firebasePath classLevel chapterId) })
    else st
  ({ success := true
     duplicate_detected := true
     file_hash := some fileHash
     existing_chunks := chunksCount
     chunks_created := chunksCount
     action := some "skipped_identical_file" },
   st',
   { temp_file_saved := true })

/-- Full processing (lines 710-847): delete existing chunks when
replacing (return value ignored), move the file, extract chunks, embed
and upsert, attempt the Firebase artifact upload, then overwrite the
metadata record with the new hash and chunk count. -/
def processNewContent (svc : Services) (st : ManagerState)
    (fileBytes : List Nat) (classLevel : Nat) (chapterId : String)
    (fileHash : String) (chapterExists force : Bool) :
    UploadResult × ManagerState × UploadTrace :=
  let deleteCalled := chapterExists || force
  let deleteResult := if deleteCalled then some svc.deleteOk else none
  let textChunks := extractTextChunks (svc.pageTexts fileBytes)
  if textChunks.isEmpty then
    ({ success := false, error := some "Failed to extract text from PDF" },
     st,
     { temp_file_saved := true, extract_calls := 1,
       delete_called := deleteCalled, delete_result := deleteResult })
  else if !(createEmbeddings svc textChunks classLevel chapterId).ok then
    ({ success := false, error := some "Failed to create embeddings" },
     st,
     { temp_file_saved := true, extract_calls := 1,
       embed_calls := (createEmbeddings svc textChunks classLevel chapterId).embedCalls,
       upserted_ids := (createEmbeddings svc textChunks classLevel chapterId).upserted,
       delete_called := deleteCalled, delete_result := deleteResult })
  else
    ({ success := true
       chunks_created := textChunks.length },
     setMeta st classLevel chapterId
       { file_hash := some fileHash
         text_chunks_count := textChunks.length
         firebase_url := if svc.firebase_initialized && svc.firebaseUploadOk
           then some (svc.publicUrl (firebasePath classLevel chapterId))
           else none
         firebase_path := if svc.firebase_initialized
           then some (firebasePath classLevel chapterId) else none
         local_path_exists := true },
     { temp_file_saved := true, extract_calls := 1,
       embed_calls := (createEmbeddings svc textChunks classLevel chapterId).embedCalls,
       upserted_ids := (createEmbeddings svc textChunks classLevel chapterId).upserted,
       delete_called := deleteCalled, delete_result := deleteResult })

def uploadChapterPdf (svc : Services) (st : ManagerState)
    (fileBytes : List Nat) (classLevel : Nat) (chapterId : String)
    (force : Bool) : UploadResult × ManagerState × UploadTrace :=
  if !(isValidChapterForClass chapterId classLevel) then
    ({ success := false
       error := some ("Invalid chapter ID: " ++ chapterId ++ " for Class " ++
         toString classLevel)
       valid_chapters := some (getChaptersForClass classLevel) },
     st, {})
  else if !(classLevel == 9 || classLevel == 10) then
    ({ success := false
       error := some ("Invalid class level: " ++ toString classLevel ++
         ". Supported: 9, 10") },
     st, {})
  else if ((lookupMeta st classLevel chapterId).bind ChapterMeta.file_hash) ==
      some (svc.sha256 fileBytes) && !force then
    handleIdenticalFile svc st classLevel chapterId (svc.sha256 fileBytes)
      (lookupMeta st classLevel chapterId)
  else if svc.chapterExistsInPinecone && !force &&
      (((lookupMeta st classLevel chapterId).bind ChapterMeta.file_hash) ==
        some (svc.sha256 fileBytes)) then
    ({ success := true
       duplicate_detected := true
       file_hash := some (svc.sha256 fileBytes)
       existing_chunks :=
         ((lookupMeta st classLevel chapterId).map
           ChapterMeta.text_chunks_count).getD 0
       chunks_created :=
         ((lookupMeta st classLevel chapterId).map
           ChapterMeta.text_chunks_count).getD 0
       action := some "skipped_same_content" },
     st, { temp_file_saved := true })
  else
    processNewContent svc st fileBytes classLevel chapterId
      (svc.sha256 fileBytes) svc.chapterExistsInPinecone force

/-! ### Claim C9 — page cap in `extract_text_chunks` -/

/-- C9 counterexample: a 51-page document whose first page is blank.
The loop processes the first 50 pages but keeps only non-blank page
texts, so the extracted text is built from 49 page-texts, not
exactly 50. -/
theorem page_cap_claim_false :
    (("" : String) :: List.replicate 50 "x").length = 51 ∧
    50 < 51 ∧
    (extractPageTexts (("" : String) :: List.replicate 50 "x")).length = 49 ∧
    (49 : Nat) ≠ 50 := by
  decide

/-- C9 (amended): extraction reads exactly the first 50 pages — pages
beyond the cap never contribute — and yields one page-text per
non-blank page among them: at most 50 page-texts, and exactly 50 when
every processed page is non-blank. -/
theorem extract_page_cap (pages : List String) :
    (extractPageTexts pages).length ≤ 50 ∧
    (∀ t ∈ extractPageTexts pages, t ∈ pages.take 50) ∧
    (50 < pages.length → (∀ t ∈ pages.take 50, pyStrip t ≠ "") →
      (extractPageTexts pages).length = 50) := by
  refine ⟨?_, ?_, ?_⟩
  · calc (extractPageTexts pages).length
        ≤ (pages.take 50).length := List.length_filter_le _ _
      _ ≤ 50 := by rw [List.length_take]; omega
  · intro t ht
    exact (List.mem_filter.mp ht).1
  · intro hgt hnb
    have : (pages.take 50).filter (fun t => !(pyStrip t == "")) = pages.take 50 := by
      apply List.filter_eq_self.mpr
      intro t ht
      simpa using hnb t ht
    rw [extractPageTexts, this, List.length_take]
    omega

/-- C9 witness: the amended cap theorem at a 51-page all-non-blank
document, yielding exactly 50 page-texts. -/
theorem extract_page_cap_witness :
    50 < (List.replicate 51 "x" : List String).length ∧
    (extractPageTexts (List.replicate 51 "x")).length = 50 :=
  ⟨by decide,
   (extract_page_cap (List.replicate 51 "x")).2.2 (by decide) (by decide)⟩

/-! ### Concrete fixtures for the orchestrator claims

`pageSmall` yields one extracted chunk (59 characters, above the
50-character minimum); `pageTwoChunks` has two 400-character words plus
a 60-character word, so character-count packing at `chunk_size = 800`
yields exactly two chunks. -/

def pageSmall : String :=
  "aaaa bbbb cccc dddd eeee ffff gggg hhhh iiii jjjj kkkk llll"

def wordA : String := String.mk (List.replicate 400 'a')

def wordB : String := String.mk (List.replicate 400 'b')

def wordC : String := String.mk (List.replicate 60 'c')

def pageTwoChunks : String := wordA ++ " " ++ wordB ++ " " ++ wordC

def svcBase : Services :=
  { firebase_initialized := false
    clients_initialized := true
    sha256 := fun _ => "hash-new"
    pageTexts := fun _ => [pageSmall]
    embedOk := fun _ => true
    chapterExistsInPinecone := true
    deleteOk := true
    firebaseUploadOk := false
    publicUrl := fun p => p }

/-- A state holding a prior ingestion record for (9, real_numbers)
with a different fingerprint than the incoming file. -/
def stPrior : ManagerState :=
  ⟨[((9, "real_numbers"),
     { file_hash := some "hash-old", text_chunks_count := 5,
       local_path_exists := true })]⟩

set_option maxRecDepth 16384

/-- C2: concrete run showing the bug.  A prior record for
(9, real_numbers) stores fingerprint "hash-old", the incoming bytes
hash to "hash-new", the chapter has vectors in Pinecone, and
`force_reupload` is false — yet `upload_chapter_pdf` does not fail with
a confirmation request: it deletes the existing chunks, reprocesses,
returns success, and overwrites the stored record with the new
fingerprint.  The `requires_confirmation` return of the source (lines
702-708) sits directly after an unconditional `return` and is
unreachable. -/
theorem content_change_autoreplaces :
    (lookupMeta stPrior 9 "real_numbers").bind ChapterMeta.file_hash =
      some "hash-old" ∧
    svcBase.sha256 [1, 2, 3] = "hash-new" ∧
    svcBase.chapterExistsInPinecone = true ∧
    (uploadChapterPdf svcBase stPrior [1, 2, 3] 9 "real_numbers" false).1.requires_confirmation
      = false ∧
    (uploadChapterPdf svcBase stPrior [1, 2, 3] 9 "real_numbers" false).1.success
      = true ∧
    (uploadChapterPdf svcBase stPrior [1, 2, 3] 9 "real_numbers" false).2.2.delete_called
      = true ∧
    (uploadChapterPdf svcBase stPrior [1, 2, 3] 9 "real_numbers" false).2.2.embed_calls
      = 1 ∧
    (lookupMeta
        (uploadChapterPdf svcBase stPrior [1, 2, 3] 9 "real_numbers" false).2.1
        9 "real_numbers").bind ChapterMeta.file_hash = some "hash-new" := by
  decide

/-! ### Claim C5 — delete failure during replacement -/

def svcDeleteFail : Services :=
  { svcBase with
    sha256 := fun _ => "hash-5"
    pageTexts := fun _ => [pageTwoChunks]
    deleteOk := false }

/-- C5 counterexample: a forced replacement where
`delete_existing_chapter_chunks` fails (returns `False`).  The
replacement is not aborted: extraction, embedding and the upsert of
both new vectors all proceed and the upload reports success. -/
theorem delete_failure_claim_false :
    (uploadChapterPdf svcDeleteFail ⟨[]⟩ [9] 10 "circles" true).2.2.delete_called
      = true ∧
    (uploadChapterPdf svcDeleteFail ⟨[]⟩ [9] 10 "circles" true).2.2.delete_result
      = some false ∧
    (uploadChapterPdf svcDeleteFail ⟨[]⟩ [9] 10 "circles" true).1.success = true ∧
    (uploadChapterPdf svcDeleteFail ⟨[]⟩ [9] 10 "circles" true).2.2.extract_calls
      = 1 ∧
    (uploadChapterPdf svcDeleteFail ⟨[]⟩ [9] 10 "circles" true).2.2.embed_calls
      = 2 ∧
    (uploadChapterPdf svcDeleteFail ⟨[]⟩ [9] 10 "circles" true).2.2.upserted_ids
      = ["10_circles_chunk_0", "10_circles_chunk_1"] := by
  decide


/-! ### Closed form of the embedding loop -/

theorem createEmbedLoop_spec (svc : Services) (cl : Nat) (ch : String) :
    ∀ (chunks : List String) (i : Nat) (buffer upserted : List String)
      (calls : Nat),
      createEmbedLoop svc cl ch chunks i buffer upserted calls =
        (upserted ++ buffer ++
          ((List.range' i chunks.length).filter svc.embedOk).map (chunkId cl ch),
         calls + chunks.length) := by
  intro chunks
  induction chunks with
  | nil =>
    intro i buffer upserted calls
    by_cases hb : buffer.isEmpty
    · simp [createEmbedLoop, hb, List.isEmpty_iff.mp hb]
    · simp [createEmbedLoop, hb]
  | cons c rest ih =>
    intro i buffer upserted calls
    simp only [createEmbedLoop]
    by_cases he : svc.embedOk i
    · rw [if_pos he]
      by_cases h10 : 10 ≤ (buffer ++ [chunkId cl ch i]).length
      · rw [if_pos h10, ih]
        simp [List.range'_succ, he, List.filter_cons, List.append_assoc]
        omega
      · rw [if_neg h10, ih]
        simp [List.range'_succ, he, List.filter_cons, List.append_assoc]
        omega
    · rw [if_neg he, ih]
      simp [List.range'_succ, he, List.filter_cons]
      omega

/-- Provided the clients are initialized, `create_embeddings` attempts
one embedding call per chunk, upserts exactly the ids of the chunks
whose call succeeded, and reports success. -/
theorem createEmbeddings_spec (svc : Services)
    (h : svc.clients_initialized = true) (chunks : List String) (cl : Nat)
    (ch : String) :
    createEmbeddings svc chunks cl ch =
      { ok := true
        upserted :=
          ((List.range chunks.length).filter svc.embedOk).map (chunkId cl ch)
        embedCalls := chunks.length } := by
  simp [createEmbeddings, h, createEmbedLoop_spec, List.range_eq_range']

theorem createEmbeddings_deleteOk (svc : Services) (b : Bool)
    (chunks : List String) (cl : Nat) (ch : String) :
    createEmbeddings { svc with deleteOk := b } chunks cl ch =
      createEmbeddings svc chunks cl ch := by
  by_cases hc : svc.clients_initialized
  · rw [createEmbeddings_spec _ hc, createEmbeddings_spec { svc with deleteOk := b } hc]
  · simp [createEmbeddings, hc]

theorem handleIdenticalFile_deleteOk (svc : Services) (b : Bool)
    (st : ManagerState) (cl : Nat) (ch : String) (fh : String)
    (ex : Option ChapterMeta) :
    handleIdenticalFile { svc with deleteOk := b } st cl ch fh ex =
      handleIdenticalFile svc st cl ch fh ex := rfl

theorem processNewContent_deleteOk (svc : Services) (b : Bool)
    (st : ManagerState) (bytes : List Nat) (cl : Nat) (ch : String)
    (fh : String) (ce force : Bool) :
    processNewContent { svc with deleteOk := b } st bytes cl ch fh ce force =
      ((processNewContent svc st bytes cl ch fh ce force).1,
       (processNewContent svc st bytes cl ch fh ce force).2.1,
       { (processNewContent svc st bytes cl ch fh ce force).2.2 with
         delete_result := if ce || force then some b else none }) := by
  simp only [processNewContent, createEmbeddings_deleteOk]
  split_ifs <;> rfl

/-- C5 (amended): `upload_chapter_pdf` invokes the deletion of existing
chunks on the replacement path but ignores its boolean result entirely:
the returned result, the stored metadata, the embedding calls and the
upserted vectors are identical whether the delete succeeds or fails. -/
theorem delete_result_ignored (svc : Services) (st : ManagerState)
    (bytes : List Nat) (classLevel : Nat) (chapterId : String)
    (force b1 b2 : Bool) :
    (uploadChapterPdf { svc with deleteOk := b1 } st bytes classLevel chapterId
        force).1 =
      (uploadChapterPdf { svc with deleteOk := b2 } st bytes classLevel chapterId
        force).1 ∧
    (uploadChapterPdf { svc with deleteOk := b1 } st bytes classLevel chapterId
        force).2.1 =
      (uploadChapterPdf { svc with deleteOk := b2 } st bytes classLevel chapterId
        force).2.1 ∧
    (uploadChapterPdf { svc with deleteOk := b1 } st bytes classLevel chapterId
        force).2.2.embed_calls =
      (uploadChapterPdf { svc with deleteOk := b2 } st bytes classLevel chapterId
        force).2.2.embed_calls ∧
    (uploadChapterPdf { svc with deleteOk := b1 } st bytes classLevel chapterId
        force).2.2.upserted_ids =
      (uploadChapterPdf { svc with deleteOk := b2 } st bytes classLevel chapterId
        force).2.2.upserted_ids ∧
    (uploadChapterPdf { svc with deleteOk := b1 } st bytes classLevel chapterId
        force).2.2.delete_called =
      (uploadChapterPdf { svc with deleteOk := b2 } st bytes classLevel chapterId
        force).2.2.delete_called := by
  simp only [uploadChapterPdf, handleIdenticalFile_deleteOk,
    processNewContent_deleteOk]
  split_ifs <;> simp


/-! ### State-lookup helper lemmas -/

theorem lookupMeta_setMeta (st : ManagerState) (cl : Nat) (ch : String)
    (m : ChapterMeta) : lookupMeta (setMeta st cl ch m) cl ch = some m := by
  simp [lookupMeta, setMeta, List.find?]

theorem lookupMeta_updateMeta (st : ManagerState) (cl : Nat) (ch : String)
    (f : ChapterMeta → ChapterMeta) :
    lookupMeta (updateMeta st cl ch f) cl ch = (lookupMeta st cl ch).map f := by
  obtain ⟨l⟩ := st
  induction l with
  | nil => rfl
  | cons p rest ih =>
    by_cases hp : (p.1.1 == cl && p.1.2 == ch) = true
    · simp [lookupMeta, updateMeta, List.find?, hp]
    · simp only [lookupMeta, updateMeta, List.map_cons, List.find?] at ih ⊢
      rw [if_neg hp]
      simp only [hp]
      exact ih

theorem createEmbeddings_ok_init (svc : Services) (chunks : List String)
    (cl : Nat) (ch : String)
    (h : (createEmbeddings svc chunks cl ch).ok = true) :
    svc.clients_initialized = true := by
  by_cases hc : svc.clients_initialized
  · exact hc
  · simp [createEmbeddings, hc] at h

/-- Branch analysis of `upload_chapter_pdf`: a successful call implies
the chapter/class pair passed validation and leaves a metadata record
whose fingerprint is the SHA-256 of the uploaded bytes and whose chunk
count is the `chunks_created` the call reported. -/
theorem upload_success_facts (svc : Services) (st : ManagerState)
    (bytes : List Nat) (cl : Nat) (ch : String) (force : Bool)
    (hs : (uploadChapterPdf svc st bytes cl ch force).1.success = true) :
    isValidChapterForClass ch cl = true ∧
    (cl == 9 || cl == 10) = true ∧
    (lookupMeta (uploadChapterPdf svc st bytes cl ch force).2.1 cl ch).bind
      ChapterMeta.file_hash = some (svc.sha256 bytes) ∧
    (lookupMeta (uploadChapterPdf svc st bytes cl ch force).2.1 cl ch).map
      ChapterMeta.text_chunks_count =
      some (uploadChapterPdf svc st bytes cl ch force).1.chunks_created := by
  by_cases h1 : isValidChapterForClass ch cl
  case neg => simp [uploadChapterPdf, h1] at hs
  case pos =>
  by_cases h2 : (cl == 9 || cl == 10) = true
  case neg => simp [uploadChapterPdf, h1, h2] at hs
  case pos =>
  refine ⟨h1, h2, ?_⟩
  by_cases h3 : (((lookupMeta st cl ch).bind ChapterMeta.file_hash) ==
      some (svc.sha256 bytes) && !force) = true
  · -- identical-file branch
    simp only [uploadChapterPdf, h1, h2, h3, Bool.not_true, Bool.false_eq_true,
      if_false, if_true, Bool.not_false]
    have heq : (lookupMeta st cl ch).bind ChapterMeta.file_hash =
        some (svc.sha256 bytes) := by
      have := (Bool.and_eq_true _ _).mp h3
      exact beq_iff_eq.mp this.1
    obtain ⟨m, hm, hfh⟩ := Option.bind_eq_some.mp heq
    simp only [handleIdenticalFile, hm]
    split_ifs with hatt hfb
    · rw [lookupMeta_updateMeta, hm]
      simp [hfh]
    · rw [lookupMeta_updateMeta, hm]
      simp [hfh]
    · rw [hm]
      simp [hfh]
  · by_cases h4 : (svc.chapterExistsInPinecone && !force &&
        (((lookupMeta st cl ch).bind ChapterMeta.file_hash) ==
          some (svc.sha256 bytes))) = true
    · exfalso
      rcases (Bool.and_eq_true _ _).mp h4 with ⟨h4a, h4b⟩
      rcases (Bool.and_eq_true _ _).mp h4a with ⟨_, h4c⟩
      exact h3 ((Bool.and_eq_true _ _).mpr ⟨h4b, h4c⟩)
    · -- full-processing branch
      simp only [uploadChapterPdf, h1, h2, h3, h4, if_true, if_false,
        Bool.false_eq_true] at hs ⊢
      by_cases h5 : (extractTextChunks (svc.pageTexts bytes)).isEmpty
      · simp [processNewContent, h5] at hs
      · by_cases h6 : (createEmbeddings svc
            (extractTextChunks (svc.pageTexts bytes)) cl ch).ok
        · simp only [processNewContent, h5, h6, Bool.not_true, if_false,
            Bool.false_eq_true, if_true]
          rw [lookupMeta_setMeta]
          simp
        · simp [processNewContent, h5, h6] at hs

/-- Branch analysis of `upload_chapter_pdf`: a successful call that did
not take a duplicate-skip branch ran full processing, so it reports the
total extracted chunk count, attempts one embedding call per chunk, and
upserts exactly the ids of the successfully embedded chunks. -/
theorem upload_processing_facts (svc : Services) (st : ManagerState)
    (bytes : List Nat) (cl : Nat) (ch : String) (force : Bool)
    (hs : (uploadChapterPdf svc st bytes cl ch force).1.success = true)
    (hd : (uploadChapterPdf svc st bytes cl ch force).1.duplicate_detected = false) :
    (uploadChapterPdf svc st bytes cl ch force).1.chunks_created =
      (extractTextChunks (svc.pageTexts bytes)).length ∧
    (uploadChapterPdf svc st bytes cl ch force).2.2.embed_calls =
      (extractTextChunks (svc.pageTexts bytes)).length ∧
    (uploadChapterPdf svc st bytes cl ch force).2.2.upserted_ids =
      ((List.range (extractTextChunks (svc.pageTexts bytes)).length).filter
        svc.embedOk).map (chunkId cl ch) := by
  by_cases h1 : isValidChapterForClass ch cl
  case neg => simp [uploadChapterPdf, h1] at hs
  case pos =>
  by_cases h2 : (cl == 9 || cl == 10) = true
  case neg => simp [uploadChapterPdf, h1, h2] at hs
  case pos =>
  by_cases h3 : (((lookupMeta st cl ch).bind ChapterMeta.file_hash) ==
      some (svc.sha256 bytes) && !force) = true
  · exfalso
    simp only [uploadChapterPdf, h1, h2, h3, if_true, if_false,
      Bool.false_eq_true, Bool.not_true, handleIdenticalFile] at hd
    simp at hd
  · by_cases h4 : (svc.chapterExistsInPinecone && !force &&
        (((lookupMeta st cl ch).bind ChapterMeta.file_hash) ==
          some (svc.sha256 bytes))) = true
    · exfalso
      rcases (Bool.and_eq_true _ _).mp h4 with ⟨h4a, h4b⟩
      rcases (Bool.and_eq_true _ _).mp h4a with ⟨_, h4c⟩
      exact h3 ((Bool.and_eq_true _ _).mpr ⟨h4b, h4c⟩)
    · simp only [uploadChapterPdf, h1, h2, h3, h4, if_true, if_false,
        Bool.false_eq_true] at hs ⊢
      by_cases h5 : (extractTextChunks (svc.pageTexts bytes)).isEmpty
      · simp [processNewContent, h5] at hs
      · by_cases h6 : (createEmbeddings svc
            (extractTextChunks (svc.pageTexts bytes)) cl ch).ok
        · have hinit := createEmbeddings_ok_init svc _ cl ch h6
          simp only [processNewContent, h5, h6, Bool.not_true, if_false,
            Bool.false_eq_true, if_true]
          rw [createEmbeddings_spec svc hinit]
          simp
        · simp [processNewContent, h5, h6] at hs

/-! ### Claim C1 — idempotence of identical re-ingestion -/

/-- C1: after any successful upload of `bytes` for `(cl, ch)`, a second
unforced upload of the same bytes takes the identical-file branch: it
succeeds, reports the duplicate, performs no extraction and no
embedding call, upserts nothing, returns the chunk count the first call
recorded (as both `chunks_created` and `existing_chunks`), and the
stored fingerprint equals the SHA-256 of the file bytes. -/
theorem identical_reingestion_idempotent (svc : Services) (st : ManagerState)
    (bytes : List Nat) (cl : Nat) (ch : String)
    (h1 : (uploadChapterPdf svc st bytes cl ch false).1.success = true) :
    (uploadChapterPdf svc (uploadChapterPdf svc st bytes cl ch false).2.1
        bytes cl ch false).1.success = true ∧
    (uploadChapterPdf svc (uploadChapterPdf svc st bytes cl ch false).2.1
        bytes cl ch false).1.duplicate_detected = true ∧
    (uploadChapterPdf svc (uploadChapterPdf svc st bytes cl ch false).2.1
        bytes cl ch false).2.2.extract_calls = 0 ∧
    (uploadChapterPdf svc (uploadChapterPdf svc st bytes cl ch false).2.1
        bytes cl ch false).2.2.embed_calls = 0 ∧
    (uploadChapterPdf svc (uploadChapterPdf svc st bytes cl ch false).2.1
        bytes cl ch false).2.2.upserted_ids = [] ∧
    (uploadChapterPdf svc (uploadChapterPdf svc st bytes cl ch false).2.1
        bytes cl ch false).1.chunks_created =
      (uploadChapterPdf svc st bytes cl ch false).1.chunks_created ∧
    (uploadChapterPdf svc (uploadChapterPdf svc st bytes cl ch false).2.1
        bytes cl ch false).1.existing_chunks =
      (uploadChapterPdf svc st bytes cl ch false).1.chunks_created ∧
    (uploadChapterPdf svc (uploadChapterPdf svc st bytes cl ch false).2.1
        bytes cl ch false).1.file_hash = some (svc.sha256 bytes) ∧
    (lookupMeta (uploadChapterPdf svc st bytes cl ch false).2.1 cl ch).bind
      ChapterMeta.file_hash = some (svc.sha256 bytes) := by
  obtain ⟨hv, hc, hh, hcnt⟩ := upload_success_facts svc st bytes cl ch false h1
  generalize hr1 : uploadChapterPdf svc st bytes cl ch false = r1 at *
  obtain ⟨m, hm, hfh⟩ := Option.bind_eq_some.mp hh
  have hmc : m.text_chunks_count = r1.1.chunks_created := by
    rw [hm] at hcnt
    simpa using hcnt
  have hbeq : (((lookupMeta r1.2.1 cl ch).bind ChapterMeta.file_hash) ==
      some (svc.sha256 bytes) && !false) = true := by
    simp [hh]
  simp only [uploadChapterPdf, hv, hc, hbeq, Bool.not_true, Bool.not_false,
    Bool.false_eq_true, if_false, if_true]
  simp only [handleIdenticalFile, hm]
  simp [hfh, hmc, hh]

def svcFresh : Services := { svcBase with chapterExistsInPinecone := false }

/-- C1 witness: the idempotence theorem applied to a concrete first
ingestion into an empty state. -/
theorem identical_reingestion_idempotent_witness :
    (uploadChapterPdf svcFresh ⟨[]⟩ [1] 9 "real_numbers" false).1.success = true ∧
    (uploadChapterPdf svcFresh
        (uploadChapterPdf svcFresh ⟨[]⟩ [1] 9 "real_numbers" false).2.1
        [1] 9 "real_numbers" false).1.duplicate_detected = true ∧
    (uploadChapterPdf svcFresh
        (uploadChapterPdf svcFresh ⟨[]⟩ [1] 9 "real_numbers" false).2.1
        [1] 9 "real_numbers" false).2.2.embed_calls = 0 :=
  ⟨by decide,
   (identical_reingestion_idempotent svcFresh ⟨[]⟩ [1] 9 "real_numbers"
     (by decide)).2.1,
   (identical_reingestion_idempotent svcFresh ⟨[]⟩ [1] 9 "real_numbers"
     (by decide)).2.2.2.1⟩

/-! ### Claim C4 — deterministic chunk ids -/

/-- C4: the vector id written for chunk index `i` of a
`(class_level, chapter_id)` ingestion is exactly
`{class_level}_{chapter_id}_chunk_{i}` — a pure function of the triple,
hence byte-identical across runs — and `delete_chapter` enumerates ids
for deletion in the same format; every upserted id of an ingestion with
at most 1000 chunks is covered by that enumeration. -/
theorem chunk_ids_deterministic (svc : Services)
    (hinit : svc.clients_initialized = true) (chunks : List String)
    (cl : Nat) (ch : String) :
    (∀ i, chunkId cl ch i =
      toString cl ++ "_" ++ ch ++ "_chunk_" ++ toString i) ∧
    (createEmbeddings svc chunks cl ch).upserted =
      ((List.range chunks.length).filter svc.embedOk).map (chunkId cl ch) ∧
    deleteChapterIds cl ch = (List.range 1000).map (chunkId cl ch) ∧
    (chunks.length ≤ 1000 →
      ∀ v ∈ (createEmbeddings svc chunks cl ch).upserted,
        v ∈ deleteChapterIds cl ch) := by
  refine ⟨fun i => rfl, ?_, rfl, ?_⟩
  · rw [createEmbeddings_spec svc hinit]
  · intro hlen v hv
    rw [createEmbeddings_spec svc hinit] at hv
    obtain ⟨j, hj, rfl⟩ := List.mem_map.mp hv
    have hjr : j < chunks.length := List.mem_range.mp (List.mem_filter.mp hj).1
    exact List.mem_map.mpr ⟨j, List.mem_range.mpr (by omega), rfl⟩

/-- C4 witness: the id-format theorem at a concrete ingestion, plus the
evaluated format string. -/
theorem chunk_ids_deterministic_witness :
    svcBase.clients_initialized = true ∧
    deleteChapterIds 9 "circles" = (List.range 1000).map (chunkId 9 "circles") ∧
    chunkId 9 "circles" 3 = "9_circles_chunk_3" :=
  ⟨by decide,
   (chunk_ids_deterministic svcBase (by decide) ["c0", "c1"] 9 "circles").2.2.1,
   by decide⟩

/-! ### Claim C6 — partial embedding failure -/

def svcEmbedFail : Services :=
  { svcBase with
    sha256 := fun _ => "hash-6"
    pageTexts := fun _ => [pageTwoChunks]
    chapterExistsInPinecone := false
    embedOk := fun i => i == 1 }

/-- C6 counterexample: with two extracted chunks of which only chunk 1
embeds successfully, the upload reports `chunks_created = 2` — the
total, not the reduced count of 1 — and when every chunk fails to
embed, the ingestion still returns success (no abort) with zero vectors
upserted. -/
theorem embedding_failure_claim_false :
    (uploadChapterPdf svcEmbedFail ⟨[]⟩ [7] 9 "circles" false).1.success = true ∧
    (uploadChapterPdf svcEmbedFail ⟨[]⟩ [7] 9 "circles" false).2.2.embed_calls
      = 2 ∧
    (uploadChapterPdf svcEmbedFail ⟨[]⟩ [7] 9 "circles" false).2.2.upserted_ids
      = ["9_circles_chunk_1"] ∧
    (uploadChapterPdf svcEmbedFail ⟨[]⟩ [7] 9 "circles" false).1.chunks_created
      = 2 ∧
    (2 : Nat) ≠ 1 ∧
    (uploadChapterPdf { svcEmbedFail with embedOk := fun _ => false } ⟨[]⟩
        [7] 9 "circles" false).1.success = true ∧
    (uploadChapterPdf { svcEmbedFail with embedOk := fun _ => false } ⟨[]⟩
        [7] 9 "circles" false).1.error = none ∧
    (uploadChapterPdf { svcEmbedFail with embedOk := fun _ => false } ⟨[]⟩
        [7] 9 "circles" false).1.chunks_created = 2 ∧
    (uploadChapterPdf { svcEmbedFail with embedOk := fun _ => false } ⟨[]⟩
        [7] 9 "circles" false).2.2.upserted_ids = [] := by
  decide

/-- C6 (amended): `create_embeddings` excludes failed chunks from the
upsert — only the ids of successfully embedded chunks are written — but
it returns success regardless, even when every chunk fails (in which
case nothing is written yet the ingestion is not aborted), and the
ingestion result reports the total extracted chunk count rather than
the reduced one. -/
theorem embedding_partial_failure (svc : Services)
    (hinit : svc.clients_initialized = true) (chunks : List String)
    (cl : Nat) (ch : String) :
    (createEmbeddings svc chunks cl ch).ok = true ∧
    (createEmbeddings svc chunks cl ch).embedCalls = chunks.length ∧
    (createEmbeddings svc chunks cl ch).upserted =
      ((List.range chunks.length).filter svc.embedOk).map (chunkId cl ch) ∧
    ((∀ i, svc.embedOk i = false) →
      (createEmbeddings svc chunks cl ch).upserted = []) ∧
    (∀ (st : ManagerState) (bytes : List Nat) (force : Bool),
      (uploadChapterPdf svc st bytes cl ch force).1.success = true →
      (uploadChapterPdf svc st bytes cl ch force).1.duplicate_detected = false →
      (uploadChapterPdf svc st bytes cl ch force).1.chunks_created =
        (extractTextChunks (svc.pageTexts bytes)).length) := by
  rw [createEmbeddings_spec svc hinit]
  refine ⟨rfl, rfl, rfl, ?_, ?_⟩
  · intro hall
    simp [List.filter_eq_nil_iff, hall]
  · intro st bytes force hs hd
    exact (upload_processing_facts svc st bytes cl ch force hs hd).1

/-- C6 witness: the amended theorem at a concrete ingestion with one
failed and one successful chunk. -/
theorem embedding_partial_failure_witness :
    svcEmbedFail.clients_initialized = true ∧
    (createEmbeddings svcEmbedFail ["c0", "c1"] 9 "circles").upserted =
      ((List.range 2).filter svcEmbedFail.embedOk).map (chunkId 9 "circles") :=
  ⟨by decide,
   (embedding_partial_failure svcEmbedFail (by decide) ["c0", "c1"]
     9 "circles").2.2.1⟩

/-! ### Claim C10 — implicit class-level gate -/

/-- C10: for every class level other than 9 and 10 the chapter catalog
is empty, so no chapter id validates and `upload_chapter_pdf` rejects
the upload before saving the file and before any embedding or
vector-store activity, leaving the state untouched; class 9 sees
exactly the non-advanced chapters while class 10 sees the full catalog
including the advanced one. -/
theorem class_level_gate (classLevel : Nat) (h9 : classLevel ≠ 9)
    (h10 : classLevel ≠ 10) :
    getChaptersForClass classLevel = [] ∧
    (∀ chapterId, isValidChapterForClass chapterId classLevel = false) ∧
    (∀ (svc : Services) (st : ManagerState) (bytes : List Nat)
        (chapterId : String) (force : Bool),
      (uploadChapterPdf svc st bytes classLevel chapterId force).1.success
        = false ∧
      (uploadChapterPdf svc st bytes classLevel chapterId force).2.1 = st ∧
      (uploadChapterPdf svc st bytes classLevel chapterId force).2.2 = {}) ∧
    getChaptersForClass 9 =
      ["real_numbers", "sets_functions", "algebraic_expressions",
       "indices_logarithms", "linear_equations", "lines_angles_triangles",
       "practical_geometry", "circles", "trigonometric_ratios",
       "distance_height", "algebraic_ratios", "simultaneous_equations",
       "finite_series", "ratio_similarity_symmetry", "area_theorems",
       "mensuration", "statistics"] ∧
    getChaptersForClass 10 = nctbChapterIds ∧
    isValidChapterForClass "real_numbers_advanced" 9 = false ∧
    isValidChapterForClass "real_numbers_advanced" 10 = true := by
  have hempty : getChaptersForClass classLevel = [] := by
    simp [getChaptersForClass, h9, h10]
  have hval : ∀ chapterId, isValidChapterForClass chapterId classLevel = false := by
    intro chapterId
    simp [isValidChapterForClass, hempty]
  refine ⟨hempty, hval, ?_, by decide, by decide, by decide, by decide⟩
  intro svc st bytes chapterId force
  simp [uploadChapterPdf, hval chapterId]

/-- C10 witness: the gate theorem applied at class level 11. -/
theorem class_level_gate_witness :
    (11 : Nat) ≠ 9 ∧ (11 : Nat) ≠ 10 ∧
    getChaptersForClass 11 = [] ∧
    isValidChapterForClass "real_numbers" 11 = false :=
  ⟨by decide, by decide, (class_level_gate 11 (by decide) (by decide)).1,
   (class_level_gate 11 (by decide) (by decide)).2.1 "real_numbers"⟩

end AITutor
